import Mathlib

/-!
Verification of the evaluation orchestration engine of
`src/evaluator/src/profile_and_evaluate.py`: the dataset loader, the scoring
engine, the type lifecycle manager and the per-column outcome classification.
Python dictionaries are embedded as association lists in insertion order,
pandas cells as `Option String` (a missing value prints as "nan" under
`dtype=str`), machine floats as exact rationals, and the remote HTTP service
as an explicit outcome value threaded through the client functions.
-/

namespace NL2FTA

/-! Python string primitives used by the evaluator. -/

/-- Python `str(cell)` for a cell read by pandas with `dtype=str`: a missing
value (NaN) prints as "nan"; a present value is its own string. -/
def cellStr : Option String → String
  | none => "nan"
  | some s => s

/-- Python `needle in hay` on strings: some suffix of `hay` starts with
`needle`. -/
def strContainsSub (hay needle : String) : Bool :=
  go hay.data needle.data
where
  go : List Char → List Char → Bool
    | cs, n => n.isPrefixOf cs ||
        match cs with
        | [] => false
        | _ :: rest => go rest n

/-- Python `s.split(sep)[0]` for a one-character separator: everything before
the first occurrence of the separator. -/
def splitHead (s : String) (sep : Char) : String :=
  ⟨s.data.takeWhile (· ≠ sep)⟩

/-- Python falsy-chaining `a or b` on an optional string: an absent or empty
first operand falls through to the second. -/
def pyOrStr (a : Option String) (b : String) : String :=
  match a with
  | none => b
  | some s => if s = "" then b else s

/-- Python `s.isdigit()`: nonempty and all characters are digits. -/
def pyIsDigit (s : String) : Bool :=
  !s.isEmpty && s.data.all Char.isDigit

/-- Python `s.strip()`: drop leading and trailing whitespace. -/
def pyStrip (s : String) : String :=
  ⟨((s.data.dropWhile Char.isWhitespace).reverse.dropWhile
      Char.isWhitespace).reverse⟩

/-- Python `s.lower()` on the ASCII range the evaluator compares. -/
def pyLower (s : String) : String :=
  ⟨s.data.map Char.toLower⟩

/-- Python `s.upper()` on the ASCII range the evaluator compares. -/
def pyUpper (s : String) : String :=
  ⟨s.data.map Char.toUpper⟩

/-- Python `round` on a rational: round half to even. -/
def pyRound (q : ℚ) : ℤ :=
  let f := q.floor
  let frac := q - f
  if frac < 1 / 2 then f
  else if frac > 1 / 2 then f + 1
  else if f % 2 = 0 then f else f + 1

/-- Python `int` on a rational: truncation toward zero. -/
def pyTrunc (q : ℚ) : ℤ :=
  if 0 ≤ q then q.floor else q.ceil

/-- Python `dict[k] = v` on an association list: replace the value in place
when the key exists, else append the new binding. -/
def setAssoc {α : Type} (l : List (String × α)) (k : String) (v : α) :
    List (String × α) :=
  if l.any (fun kv => kv.1 == k) then
    l.map (fun kv => if kv.1 == k then (k, v) else kv)
  else
    l ++ [(k, v)]

/-! Dataset loader (`_load_universal`): row 0 = baseline ground truth,
row 1 = custom ground truth, row 2 = headers, rows 3+ = data. -/

/-- One CSV cell as pandas reads it with `dtype=str`: `none` is a missing
value. -/
abbrev Cell := Option String

/-- Ground-truth cell normalization inside `_load_universal`: `str` the cell,
drop it when falsy / "nan" / whitespace, and truncate at the first `.` when it
carries one of the disambiguating substrings `.1`, `.2`, `.3`. -/
def normalizeGtCell (c : Cell) : Option String :=
  let t := cellStr c
  if t ≠ "" ∧ pyLower t ≠ "nan" ∧ pyStrip t ≠ "" then
    some (if strContainsSub t ".1" || strContainsSub t ".2" || strContainsSub t ".3"
          then splitHead t '.' else t)
  else none

/-- The header / ground-truth loop of `_load_universal`: walk the header row
with its column index, skip columns whose header is empty or "nan", and
collect the surviving headers together with their normalized baseline and
custom ground-truth entries. An index beyond a ground-truth row reads as a
missing cell, which normalizes to absent exactly as the source's bounds check
does. -/
def loadColumns (baselineRow customRow : List Cell) :
    Nat → List Cell → List String × List (String × String) × List (String × String)
  | _, [] => ([], [], [])
  | idx, h :: rest =>
    let r := loadColumns baselineRow customRow (idx + 1) rest
    let name := cellStr h
    if name = "" ∨ pyLower name = "nan" then r
    else
      let gb' := match normalizeGtCell (baselineRow.getD idx none) with
        | some t => (name, t) :: r.2.1
        | none => r.2.1
      let gc' := match normalizeGtCell (customRow.getD idx none) with
        | some t => (name, t) :: r.2.2
        | none => r.2.2
      (name :: r.1, gb', gc')

/-- Data cell normalization inside `_load_universal`: empty, whitespace-only
or (case-insensitive) "nan" becomes null; anything else keeps its string
form. A missing pandas cell also becomes null (its `str` form is "nan"). -/
def normalizeDataCell (c : Cell) : Option String :=
  match c with
  | none => none
  | some s => if pyStrip s = "" ∨ pyLower s = "nan" then none else some s

/-- One data row of `_load_universal`: the i-th kept header is paired with the
i-th cell of the row (the source indexes the row by the position in the
filtered header list), missing positions reading as null. -/
def buildDataRow (headers : List String) (row : List Cell) :
    List (String × Option String) :=
  headers.enum.map (fun p => (p.2, normalizeDataCell (row.getD p.1 none)))

/-- The result of `_load_universal`. -/
structure LoadedDataset where
  headers : List String
  dataRows : List (List (String × Option String))
  gtBase : List (String × String)
  gtCustom : List (String × String)
deriving Repr, DecidableEq

/-- `_load_universal`: fail on fewer than 4 rows, else build headers, the two
ground-truth maps, and the normalized data rows. -/
def loadUniversal (rows : List (List Cell)) : Except String LoadedDataset :=
  if rows.length < 4 then
    .error "file does not have at least 4 rows for universal format"
  else
    let r := loadColumns (rows.getD 0 []) (rows.getD 1 []) 0 (rows.getD 2 [])
    .ok ⟨r.1, (rows.drop 3).map (buildDataRow r.1), r.2.1, r.2.2⟩

/-! Scoring engine (`_compute_classification_details`,
`_calculate_metric_scores`, `_aggregate_metrics_list`). -/

/-- One column's entry in a parsed prediction map: the `semantic_type` and
`semanticType` keys the scorer reads (each possibly absent). -/
structure Classification where
  semantic_type : Option String := none
  semanticTypeCamel : Option String := none
deriving Repr, DecidableEq

/-- The predicted label of a classification entry:
`entry.get('semantic_type') or entry.get('semanticType') or 'NONE'`. -/
def predictedType (e : Classification) : String :=
  pyOrStr e.semantic_type (pyOrStr e.semanticTypeCamel "NONE")

/-- One row of the per-column detail list. -/
structure Detail where
  column : String
  predicted : String
  actual : String
  correct : Bool
deriving Repr, DecidableEq

/-- `_compute_classification_details`: walk the prediction map in order; a
column whose ground-truth entry is absent, empty or "nan" is excluded,
otherwise a detail row records the predicted label, the actual label and
exact-equality correctness. -/
def computeClassificationDetails (cls : List (String × Classification))
    (gt : List (String × String)) : List Detail × List String :=
  match cls with
  | [] => ([], [])
  | (col, c) :: rest =>
    let r := computeClassificationDetails rest gt
    match List.lookup col gt with
    | none => (r.1, col :: r.2)
    | some t =>
      if t = "" ∨ t = "nan" then (r.1, col :: r.2)
      else
        let p := predictedType c
        (⟨col, p, t, p == t⟩ :: r.1, r.2)

/-- The metric record `_calculate_metric_scores` returns. -/
structure MetricSet where
  accuracy : ℚ
  precision : ℚ
  recall_ : ℚ
  f1_score : ℚ
  total_columns : ℕ
  excluded_columns : ℕ
  correct_predictions : ℕ
  true_positives : ℕ
  false_positives : ℕ
  false_negatives : ℕ
  details : List Detail
deriving Repr, DecidableEq

/-- `_calculate_metric_scores`: count correct predictions, true/false
positives and false negatives over the detail list, then derive accuracy,
precision, recall_ and F1, a zero denominator yielding 0. -/
def calculateMetricScores (ds : List Detail) (excludedCount : ℕ) : MetricSet :=
  let correct := ds.countP (fun d => d.correct)
  let tp := ds.countP (fun d => d.correct && d.predicted != "NONE")
  let fp := ds.countP (fun d => !d.correct && d.predicted != "NONE")
  let fneg := ds.countP (fun d => !d.correct && d.actual != "NONE")
  let total := ds.length
  let accuracy : ℚ := if total > 0 then (correct : ℚ) / total else 0
  let precision : ℚ := if tp + fp > 0 then (tp : ℚ) / ((tp : ℚ) + fp) else 0
  let recall_ : ℚ := if tp + fneg > 0 then (tp : ℚ) / ((tp : ℚ) + fneg) else 0
  let f1 : ℚ := if precision + recall_ > 0
    then 2 * (precision * recall_) / (precision + recall_) else 0
  ⟨accuracy, precision, recall_, f1, total, excludedCount, correct, tp, fp, fneg, ds⟩

/-- `calculate_metrics` / `_profile_and_score` after response parsing: details
and excluded columns from the prediction map, then the metric scores with the
excluded count. -/
def calculateMetrics (cls : List (String × Classification))
    (gt : List (String × String)) : MetricSet :=
  calculateMetricScores (computeClassificationDetails cls gt).1
    (computeClassificationDetails cls gt).2.length

/-- `_aggregate_metrics_list`: sum the six integer counts over the per-file
metric records, concatenate the detail lists, and recompute the four ratios
from the summed counts. -/
def aggregateMetricsList (ms : List MetricSet) : MetricSet :=
  match ms with
  | [] => ⟨0, 0, 0, 0, 0, 0, 0, 0, 0, 0, []⟩
  | _ =>
    let correct : ℕ := (ms.map (·.correct_predictions)).sum
    let tp : ℕ := (ms.map (·.true_positives)).sum
    let fp : ℕ := (ms.map (·.false_positives)).sum
    let fneg : ℕ := (ms.map (·.false_negatives)).sum
    let total : ℕ := (ms.map (·.total_columns)).sum
    let excluded : ℕ := (ms.map (·.excluded_columns)).sum
    let ds := (ms.map (·.details)).flatten
    let accuracy : ℚ := if total > 0 then (correct : ℚ) / total else 0
    let precision : ℚ := if tp + fp > 0 then (tp : ℚ) / ((tp : ℚ) + fp) else 0
    let recall_ : ℚ := if tp + fneg > 0 then (tp : ℚ) / ((tp : ℚ) + fneg) else 0
    let f1 : ℚ := if precision + recall_ > 0
      then 2 * (precision * recall_) / (precision + recall_) else 0
    ⟨accuracy, precision, recall_, f1, total, excluded, correct, tp, fp, fneg, ds⟩

/-! Type lifecycle manager (`create_custom_type`, `_build_custom_type_payload`,
`_upsert_custom_type`, `_is_same_type`). -/

/-- One header-matching hint of a generated type (`headerPatterns` entries
of the JSON record), fields possibly absent as in the source dictionaries. -/
structure HeaderPattern where
  regExp : Option String := none
  confidence : Option ℤ := none
  mandatory : Option Bool := none
deriving Repr, DecidableEq

/-- A generated semantic-type record as the lifecycle manager consumes it.
The numeric confidence threshold is an exact rational (the claims concern
numeric thresholds; a non-numeric threshold string falls to the same default
95 as an absent one). -/
structure GeneratedType where
  semanticType : String := ""
  description : String := ""
  pluginType : String := ""
  baseType : Option String := none
  confidenceThreshold : Option ℚ := none
  priority : Option ℤ := none
  regexPattern : Option String := none
  listValues : Option (List (Option String)) := none
  backout : Option String := none
  headerPatterns : List HeaderPattern := []
deriving Repr, DecidableEq

/-- A `headerRegExps` entry of a registry payload. -/
structure HeaderRegex where
  regExp : String
  confidence : ℤ
  mandatory : Bool
deriving Repr, DecidableEq

/-- A `matchEntries` entry of a registry payload. -/
structure MatchEntry where
  regExpReturned : String
  isRegExpComplete : Bool
deriving Repr, DecidableEq

/-- One `validLocales` entry of a registry payload, with the sub-entry
defaults of `_is_same_type` (locale tag "*", confidence 95, mandatory false,
complete true) materialized. -/
structure Locale where
  localeTag : String := "*"
  headerRegExps : List HeaderRegex := []
  matchEntries : List MatchEntry := []
deriving Repr, DecidableEq

/-- The inline value set of a `list` payload (`content` key, with
`type = "inline"`). `contentType` embeds the source key `type`. -/
structure ListContent where
  contentType : String
  values : List String
deriving Repr, DecidableEq

/-- A registry payload / registry entry as `_build_custom_type_payload`
produces it and `_upsert_custom_type` caches it. -/
structure Payload where
  semanticType : String
  description : String
  pluginType : String
  baseType : String
  threshold : ℤ
  priority : ℤ
  validLocales : List Locale
  content : Option ListContent := none
  backout : Option String := none
  ephemeral : Bool := false
deriving Repr, DecidableEq

/-- `_is_valid_generated_type` with the name-filter regex at its initialized
value `None` (the program never assigns `_only_types_regex`): reject plugin
kind "java", then require nonempty name, description and plugin kind. -/
def isValidGeneratedType (gt : GeneratedType) : Bool :=
  if gt.pluginType = "java" then false
  else if gt.semanticType = "" then false
  else if gt.description = "" then false
  else if gt.pluginType = "" then false
  else true

/-- `_determine_priority`: the record's priority, or the default 1000. -/
def determinePriority (gt : GeneratedType) : ℤ :=
  gt.priority.getD 1000

/-- `_determine_base_type`: an explicit nonempty baseType wins (with "string"
canonicalized to "STRING"); a regex type is "LONG" when its pattern, stripped
of anchors, uses only digit-pattern characters; a list type is "LONG" when all
values are digit strings; otherwise "STRING". -/
def determineBaseType (gt : GeneratedType) : String :=
  match gt.baseType with
  | some b =>
    if b ≠ "" then (if pyLower b = "string" then "STRING" else b)
    else determineBaseTypeNoExplicit gt
  | none => determineBaseTypeNoExplicit gt
where
  determineBaseTypeNoExplicit (gt : GeneratedType) : String :=
    if gt.pluginType = "regex" then
      let pattern := gt.regexPattern.getD ""
      let stripped : List Char := pattern.data.filter (fun ch => !(ch == '^') && !(ch == '$'))
      let numericLike := stripped.all
        (fun ch => ("\\d\x7b\x7d0123456789".data).contains ch)
      if numericLike then "LONG" else "STRING"
    else if gt.pluginType = "list" then
      let values := (gt.listValues.getD []).filterMap id
      if !values.isEmpty && values.all pyIsDigit then "LONG" else "STRING"
    else "STRING"

/-- The threshold-resolution block of `_build_custom_type_payload`: absent
defaults to 95; a numeric value at most 1.0 scales by 100 and rounds; any
other numeric value truncates to an integer; a result below 80 resets to 95,
then a result above 100 clamps to 100. -/
def resolveThreshold (raw : Option ℚ) : ℤ :=
  let t : ℤ :=
    match raw with
    | none => 95
    | some q => if q ≤ 1 then pyRound (q * 100) else pyTrunc q
  let t := if t < 80 then 95 else t
  if t > 100 then 100 else t

/-- `_add_list_content`: reject an absent or empty value list; deduplicate the
values case-insensitively, keeping the upper-cased form of first occurrences
and dropping null or blank entries; then reject an absent or blank backout. -/
def addListContent (p : Payload) (gt : GeneratedType) : Option Payload :=
  match gt.listValues with
  | none => none
  | some vs =>
    if vs.isEmpty then none
    else
      let members := dedupUpper vs []
      let p := { p with content := some ⟨"inline", members⟩ }
      let backout := pyStrip (gt.backout.getD "")
      if backout = "" then none
      else some { p with backout := some backout }
where
  dedupUpper : List (Option String) → List String → List String
    | [], _ => []
    | none :: rest, seen => dedupUpper rest seen
    | some v :: rest, seen =>
      let s := pyStrip v
      if s = "" then dedupUpper rest seen
      else
        let u := pyUpper s
        if seen.contains u then dedupUpper rest seen
        else u :: dedupUpper rest (u :: seen)

/-- `_add_regex_content`: reject an absent or blank pattern; otherwise put one
complete match entry with the stripped pattern on the first locale. -/
def addRegexContent (p : Payload) (gt : GeneratedType) : Option Payload :=
  let pattern := pyStrip (gt.regexPattern.getD "")
  if pattern = "" then none
  else
    some { p with validLocales :=
      match p.validLocales with
      | [] => []
      | l :: rest => { l with matchEntries := [⟨pattern, true⟩] } :: rest }

/-- `_add_header_patterns`: collect the nonblank header hints, defaulting
confidence to 95 and mandatory to false, and attach them to the first locale
when any survive. -/
def addHeaderPatterns (p : Payload) (gt : GeneratedType) : Payload :=
  let hps := gt.headerPatterns.filterMap (fun hp =>
    let reg := pyStrip (hp.regExp.getD "")
    if reg = "" then none
    else some (⟨reg, hp.confidence.getD 95, hp.mandatory.getD false⟩ : HeaderRegex))
  if hps.isEmpty then p
  else
    { p with validLocales :=
      match p.validLocales with
      | [] => []
      | l :: rest => { l with headerRegExps := hps } :: rest }

/-- `_build_custom_type_payload`: resolve the threshold, assemble the base
payload with one locale tagged "*", add the kind-specific content (failing for
an invalid list or regex payload), and attach the header patterns. -/
def buildCustomTypePayload (gt : GeneratedType) : Option Payload :=
  let base : Payload :=
    { semanticType := pyStrip gt.semanticType
      description := pyStrip gt.description
      pluginType := gt.pluginType
      baseType := determineBaseType gt
      threshold := resolveThreshold gt.confidenceThreshold
      priority := determinePriority gt
      validLocales := [{ localeTag := "*" }] }
  let withContent : Option Payload :=
    if gt.pluginType = "list" then addListContent base gt
    else if gt.pluginType = "regex" then addRegexContent base gt
    else some base
  withContent.map (fun p => addHeaderPatterns p gt)

/-- The normalized view `_is_same_type` compares: the picked scalar keys, the
canonicalized locale entries and the content type and values. The name and
description are not compared, nor is the ephemeral flag. -/
structure NormView where
  pluginType : String
  baseType : String
  threshold : ℤ
  priority : ℤ
  backout : Option String
  validLocales : List Locale
  contentType : Option String
  contentValues : Option (List String)
deriving Repr, DecidableEq

/-- The normalization step of `_is_same_type` (sub-entry defaults are already
materialized in `Locale`, so canonicalizing a locale is the identity here). -/
def normType (p : Payload) : NormView :=
  { pluginType := p.pluginType
    baseType := p.baseType
    threshold := p.threshold
    priority := p.priority
    backout := p.backout
    validLocales := p.validLocales
    contentType := p.content.map (·.contentType)
    contentValues := p.content.map (·.values) }

/-- `_is_same_type`: order-insensitive structural equality of the two
normalized views (the source compares their key-sorted JSON dumps). -/
def isSameType (a b : Payload) : Bool :=
  normType a == normType b

/-- The lifecycle state threaded through upserts: the remote registry, the
local `_existing_types_cache`, the session `_created_types` set, the number of
write requests issued, and the `_dry_run_create` flag. -/
structure RegistryState where
  registry : List (String × Payload) := []
  cache : List (String × Payload) := []
  created : List String := []
  writes : ℕ := 0
  dryRun : Bool := false
deriving Repr, DecidableEq

/-- `_upsert_custom_type` with the remote service modeled as answering
successfully: refresh the cache from the registry when it is empty; skip (and
return false) when a cached entry with the same name is structurally
identical, or in dry-run mode; otherwise mark the payload ephemeral, issue one
write, record the name as session-created and store the written payload in the
cache (and registry). -/
def upsertCustomType (s : RegistryState) (p : Payload) : Bool × RegistryState :=
  let cache := if s.cache.isEmpty then s.registry else s.cache
  let existing := List.lookup p.semanticType cache
  let skipSame := match existing with
    | some ex => isSameType ex p
    | none => false
  if skipSame then (false, { s with cache := cache })
  else if s.dryRun then (false, { s with cache := cache })
  else
    let p' := { p with ephemeral := true }
    (true,
      { s with
        registry := setAssoc s.registry p.semanticType p'
        cache := setAssoc cache p.semanticType p'
        created := p.semanticType :: s.created
        writes := s.writes + 1 })

/-- `create_custom_type`: validate, build the payload, and upsert; a failed
validation or build returns false without touching the registry. -/
def createCustomType (s : RegistryState) (gt : GeneratedType) :
    Bool × RegistryState :=
  if !isValidGeneratedType gt then (false, s)
  else
    match buildCustomTypePayload gt with
    | none => (false, s)
    | some p => upsertCustomType s p

/-! Profiling client (`profile_rows`, `profile_data`). The single HTTP call is
embedded as an explicit outcome value: a successful response with a JSON body,
a non-success status with its text, or a timeout. -/

/-- One entry of the list-shaped response (`columns`), with the snake- and
camel-cased keys the normalizer reads. -/
structure ColumnObj where
  column_name : Option String := none
  columnName : Option String := none
  name : Option String := none
  semantic_type : Option String := none
  semanticTypeCamel : Option String := none
deriving Repr, DecidableEq

/-- A profiling response body: an optional name-keyed classification map and
an optional list of row objects. -/
structure ProfileBody where
  column_classifications : Option (List (String × Classification)) := none
  columns : Option (List ColumnObj) := none
deriving Repr, DecidableEq

/-- The outcome of the one HTTP call a profiling function makes. -/
inductive HttpOutcome where
  | ok (body : ProfileBody)
  | errStatus (code : ℕ) (text : String)
  | timeout
deriving Repr, DecidableEq

/-- `profile_rows`: a 200 response returns its body; a non-success status
logs and returns a body with an empty list and an empty classification map; a
timeout (or any other exception) logs and returns an empty body. The column
and row caps upstream of the call do not affect the returned value shape. -/
def profileRows (outcome : HttpOutcome) : ProfileBody :=
  match outcome with
  | .ok body => body
  | .errStatus _ _ => { column_classifications := some [], columns := some [] }
  | .timeout => {}

/-- The typed failures `profile_data` raises: a RuntimeError carrying the
non-success status and text, or a TimeoutError. -/
inductive ProfilingError where
  | profilingFailed (status : ℕ) (text : String)
  | profilingTimedOut
deriving Repr, DecidableEq

/-- `profile_data`: a 200 response returns its body; a non-success status
raises a RuntimeError naming the status; a timeout raises a TimeoutError. -/
def profileData (outcome : HttpOutcome) : Except ProfilingError ProfileBody :=
  match outcome with
  | .ok body => .ok body
  | .errStatus c t => .error (.profilingFailed c t)
  | .timeout => .error .profilingTimedOut

/-! Per-column outcome classification (`_compute_correct_map`,
`_print_per_column_outcome_summary`, `_aggregate_per_column_outcome`,
`_print_aggregate_per_column_outcome`). -/

/-- `_compute_correct_map`: for each predicted column with a usable
ground-truth label, record whether the predicted label equals it. -/
def computeCorrectMap (cls : List (String × Classification))
    (gt : List (String × String)) : List (String × Bool) :=
  match cls with
  | [] => []
  | (col, e) :: rest =>
    match List.lookup col gt with
    | none => computeCorrectMap rest gt
    | some t =>
      if t = "" ∨ t = "nan" then computeCorrectMap rest gt
      else (col, predictedType e == t) :: computeCorrectMap rest gt

/-- `_per_column_correct_map`: like `computeCorrectMap` but each column also
keeps its predicted semantic type, as the aggregate outcome consumes it. -/
def perColumnCorrectMap (cls : List (String × Classification))
    (gt : List (String × String)) : List (String × (Bool × String)) :=
  match cls with
  | [] => []
  | (col, e) :: rest =>
    match List.lookup col gt with
    | none => perColumnCorrectMap rest gt
    | some t =>
      let p := predictedType e
      if t = "" ∨ t = "nan" then perColumnCorrectMap rest gt
      else (col, (p == t, p)) :: perColumnCorrectMap rest gt

/-- The shared four-way outcome wording, given per-side correctness flags. -/
def outcomeWord (b c : Bool) : String :=
  if b && c then "both"
  else if c && !b then "custom only"
  else if b && !c then "baseline only"
  else "neither"

/-- The outcome `_print_per_column_outcome_summary` assigns one column (ANSI
colors stripped): a side counts as correct when ANY file's correctness map
holds `true` for the column. -/
def descColumnOutcome (baseMaps custMaps : List (List (String × Bool)))
    (col : String) : String :=
  let baseAny := baseMaps.any (fun m => (List.lookup col m).getD false)
  let custAny := custMaps.any (fun m => (List.lookup col m).getD false)
  if baseAny && custAny then "both"
  else if custAny && !baseAny then "custom only"
  else if baseAny && !custAny then "baseline only"
  else "neither"

/-- The per-file inputs of `_aggregate_per_column_outcome`: the baseline and
custom `_per_column_correct_map` results of one file. -/
abbrev FileMaps := List (String × (Bool × String)) × List (String × (Bool × String))

/-- A column occurs in a file when either track's correctness map carries it
(the union of keys `_aggregate_per_column_outcome` iterates). -/
def colOccurs (fp : FileMaps) (col : String) : Bool :=
  (List.lookup col fp.1).isSome || (List.lookup col fp.2).isSome

/-- `base_map.get(col, default).get('correct', False)` of one file. -/
def baseOkAt (fp : FileMaps) (col : String) : Bool :=
  ((List.lookup col fp.1).map (·.1)).getD false

/-- `cust_map.get(col, default).get('correct', False)` of one file. -/
def custOkAt (fp : FileMaps) (col : String) : Bool :=
  ((List.lookup col fp.2).map (·.1)).getD false

/-- The per-column counters of `_aggregate_per_column_outcome`: for each file
where the column carries a label on either track, one occurrence, plus one
baseline-correct and one custom-correct count when the respective map says
so. -/
def aggColumnStats (col : String) : List FileMaps → ℕ × ℕ × ℕ
  | [] => (0, 0, 0)
  | fp :: rest =>
    let r := aggColumnStats col rest
    if colOccurs fp col then
      (r.1 + 1,
       r.2.1 + (if baseOkAt fp col then 1 else 0),
       r.2.2 + (if custOkAt fp col then 1 else 0))
    else r

/-- The outcome label of `_print_aggregate_per_column_outcome`: a side counts
as correct when its correct count equals the column's occurrence total. -/
def aggOutcomeLabel (stats : ℕ × ℕ × ℕ) : String :=
  let bOk := stats.2.1 = stats.1
  let cOk := stats.2.2 = stats.1
  if bOk ∧ cOk then "both"
  else if cOk ∧ ¬ bOk then "custom only"
  else if bOk ∧ ¬ cOk then "baseline only"
  else "neither"

/-- The aggregate outcome of one column across files. -/
def aggColumnOutcome (files : List FileMaps) (col : String) : String :=
  aggOutcomeLabel (aggColumnStats col files)

/-! Spec-side restatements and proof-support definitions. -/

/-- Threshold resolution restated from the specification text (§4.4): absent
defaults to 95; a fraction at most 1.0 scales by 100 and rounds; otherwise the
value is taken as an absolute integer; below 80 clamps up to 95, above 100
clamps down to 100. Compared against the source-side `resolveThreshold`. -/
def specThreshold (raw : Option ℚ) : ℤ :=
  let v : ℤ :=
    match raw with
    | none => 95
    | some q => if q ≤ 1 then pyRound (q * 100) else pyTrunc q
  if v < 80 then 95 else if v > 100 then 100 else v

/-- The detail row one prediction-map entry contributes, when it is scored. -/
def detailEntry (gt : List (String × String)) (pc : String × Classification) :
    Option Detail :=
  match List.lookup pc.1 gt with
  | none => none
  | some t =>
    if t = "" ∨ t = "nan" then none
    else some ⟨pc.1, predictedType pc.2, t, predictedType pc.2 == t⟩

/-- The excluded-column entry one prediction-map entry contributes, when it is
not scored. -/
def excludedEntry (gt : List (String × String)) (pc : String × Classification) :
    Option String :=
  match List.lookup pc.1 gt with
  | none => some pc.1
  | some t => if t = "" ∨ t = "nan" then some pc.1 else none

/-- A concrete 4-row universal file used to instantiate the loader theorems:
baseline ground truth "EMAIL.2", custom ground truth "ZIP", header "name",
one data row. -/
def rowsUniversalEx : List (List Cell) :=
  [[some "EMAIL.2"], [some "ZIP"], [some "name"], [some "a"]]

/-- The dataset the loader produces for `rowsUniversalEx` (the ".2" suffix of
the baseline ground truth is normalized away). -/
def dsUniversalEx : LoadedDataset :=
  { headers := ["name"]
    dataRows := [[("name", some "a")]]
    gtBase := [("name", "EMAIL")]
    gtCustom := [("name", "ZIP")] }

/-- A concrete regex generated type used to instantiate lifecycle theorems. -/
def gtRegexEx : GeneratedType :=
  { semanticType := "STATE.CODE"
    description := "Two letter state code"
    pluginType := "regex"
    regexPattern := some "[A-Z][A-Z]" }

/-- The payload `_build_custom_type_payload` produces for `gtRegexEx`. -/
def payloadRegexEx : Payload :=
  { semanticType := "STATE.CODE"
    description := "Two letter state code"
    pluginType := "regex"
    baseType := "STRING"
    threshold := 95
    priority := 1000
    validLocales := [{ localeTag := "*", matchEntries := [⟨"[A-Z][A-Z]", true⟩] }] }

/-- A concrete list generated type with values but no backout pattern. -/
def gtListNoBackoutEx : GeneratedType :=
  { semanticType := "US.STATE"
    description := "US state abbreviations"
    pluginType := "list"
    listValues := some [some "CA", some "NY"] }

/-! Evaluation lemmas for the rational rounding helpers. -/

theorem rat_floor_intCast (n : ℤ) : ((n : ℚ)).floor = n := by
  simp [Rat.floor, Rat.den_intCast, Rat.num_intCast]

theorem rat_ceil_intCast (n : ℤ) : ((n : ℚ)).ceil = n := by
  simp [Rat.ceil, Rat.den_intCast, Rat.num_intCast]

theorem pyRound_intCast (n : ℤ) : pyRound ((n : ℤ) : ℚ) = n := by
  unfold pyRound
  rw [rat_floor_intCast]
  norm_num

theorem pyTrunc_intCast (n : ℤ) : pyTrunc ((n : ℤ) : ℚ) = n := by
  unfold pyTrunc
  split <;> simp [rat_floor_intCast, rat_ceil_intCast]

/-! Field lemmas of the scoring record, each holding by unfolding. -/

theorem cms_total (ds : List Detail) (e : ℕ) :
    (calculateMetricScores ds e).total_columns = ds.length := rfl

theorem cms_excluded (ds : List Detail) (e : ℕ) :
    (calculateMetricScores ds e).excluded_columns = e := rfl

theorem cms_correct (ds : List Detail) (e : ℕ) :
    (calculateMetricScores ds e).correct_predictions =
      ds.countP (fun d => d.correct) := rfl

theorem cms_tp (ds : List Detail) (e : ℕ) :
    (calculateMetricScores ds e).true_positives =
      ds.countP (fun d => d.correct && d.predicted != "NONE") := rfl

theorem cms_fp (ds : List Detail) (e : ℕ) :
    (calculateMetricScores ds e).false_positives =
      ds.countP (fun d => !d.correct && d.predicted != "NONE") := rfl

theorem cms_fneg (ds : List Detail) (e : ℕ) :
    (calculateMetricScores ds e).false_negatives =
      ds.countP (fun d => !d.correct && d.actual != "NONE") := rfl

theorem cms_details (ds : List Detail) (e : ℕ) :
    (calculateMetricScores ds e).details = ds := rfl

theorem cms_accuracy (ds : List Detail) (e : ℕ) :
    (calculateMetricScores ds e).accuracy =
      (if (calculateMetricScores ds e).total_columns > 0
       then ((calculateMetricScores ds e).correct_predictions : ℚ) /
            ((calculateMetricScores ds e).total_columns : ℚ)
       else 0) := rfl

theorem cms_precision (ds : List Detail) (e : ℕ) :
    (calculateMetricScores ds e).precision =
      (if (calculateMetricScores ds e).true_positives +
            (calculateMetricScores ds e).false_positives > 0
       then ((calculateMetricScores ds e).true_positives : ℚ) /
            (((calculateMetricScores ds e).true_positives : ℚ) +
              ((calculateMetricScores ds e).false_positives : ℚ))
       else 0) := rfl

theorem cms_recall (ds : List Detail) (e : ℕ) :
    (calculateMetricScores ds e).recall_ =
      (if (calculateMetricScores ds e).true_positives +
            (calculateMetricScores ds e).false_negatives > 0
       then ((calculateMetricScores ds e).true_positives : ℚ) /
            (((calculateMetricScores ds e).true_positives : ℚ) +
              ((calculateMetricScores ds e).false_negatives : ℚ))
       else 0) := rfl

theorem cms_f1 (ds : List Detail) (e : ℕ) :
    (calculateMetricScores ds e).f1_score =
      (if (calculateMetricScores ds e).precision +
            (calculateMetricScores ds e).recall_ > 0
       then 2 * ((calculateMetricScores ds e).precision *
              (calculateMetricScores ds e).recall_) /
            ((calculateMetricScores ds e).precision +
              (calculateMetricScores ds e).recall_)
       else 0) := rfl

/-- Claim C2: threshold resolution in the registry payload builder — a missing
confidence threshold yields 95; a numeric threshold at most 1.0 is scaled by
100 and rounded; any other numeric value is truncated to an integer; a
resolved value below 80 becomes 95 and a value above 100 becomes 100; in
particular 0.5 yields 95, 120 yields 100 and 88 yields 88. The source-side
`resolveThreshold` agrees with the spec-side `specThreshold` everywhere. -/
theorem c2_threshold_resolution :
    resolveThreshold none = 95 ∧
    (∀ raw : Option ℚ, resolveThreshold raw = specThreshold raw) ∧
    resolveThreshold (some (1 / 2)) = 95 ∧
    resolveThreshold (some 120) = 100 ∧
    resolveThreshold (some 88) = 88 := by
  refine ⟨by decide, ?_, ?_, ?_, ?_⟩
  · intro raw
    simp only [resolveThreshold, specThreshold]
    generalize (match raw with
      | none => (95 : ℤ)
      | some q => if q ≤ 1 then pyRound (q * 100) else pyTrunc q) = t
    by_cases h : t < 80 <;> simp [h]
  · have hr : pyRound (50 : ℚ) = 50 := by
      rw [(by norm_num : (50 : ℚ) = ((50 : ℤ) : ℚ)), pyRound_intCast]
    norm_num [resolveThreshold, hr]
  · have h120 : (120 : ℚ) = ((120 : ℤ) : ℚ) := by norm_num
    have ht : pyTrunc (120 : ℚ) = 120 := by rw [h120, pyTrunc_intCast]
    norm_num [resolveThreshold, ht]
  · have h88 : (88 : ℚ) = ((88 : ℤ) : ℚ) := by norm_num
    have ht : pyTrunc (88 : ℚ) = 88 := by rw [h88, pyTrunc_intCast]
    norm_num [resolveThreshold, ht]

/-- Claim C5 counterexample: `profile_rows` does not surface a typed failure —
its value on a non-success status is literally the value of a successful call
whose body carries an empty column list and empty classification map, and its
value on a timeout is the value of a successful call with an empty body, so
the client itself degrades failures to a normal-looking empty result. -/
theorem c5_counterexample :
    profileRows (.errStatus 500 "Internal Server Error") =
      profileRows (.ok { column_classifications := some [], columns := some [] }) ∧
    profileRows .timeout = profileRows (.ok {}) :=
  ⟨rfl, rfl⟩

/-- Claim C5 (amended): `profile_data` reports a non-success status and a
timeout as distinguishable typed failures, while `profile_rows` itself
degrades a non-success status to an empty prediction structure and a timeout
to an empty body — degradation happens inside the batch client, not only in
callers. -/
theorem c5_typed_failures (c : ℕ) (t : String) (body : ProfileBody) :
    profileData (.errStatus c t) = .error (.profilingFailed c t) ∧
    profileData .timeout = .error .profilingTimedOut ∧
    profileData (.ok body) = .ok body ∧
    profileRows (.errStatus c t) =
      { column_classifications := some [], columns := some [] } ∧
    profileRows .timeout = {} :=
  ⟨rfl, rfl, rfl, rfl, rfl⟩

/-- Claim C1 counterexample: one scored column with a wrong non-NONE
prediction against a non-NONE actual label is counted as a false positive AND
a false negative — two counts, not exactly one of FP or FN. -/
theorem c1_counterexample :
    (calculateMetrics [("col", { semantic_type := some "X" })]
        [("col", "Y")]).false_positives = 1 ∧
    (calculateMetrics [("col", { semantic_type := some "X" })]
        [("col", "Y")]).false_negatives = 1 ∧
    (calculateMetrics [("col", { semantic_type := some "X" })]
        [("col", "Y")]).correct_predictions = 0 ∧
    (calculateMetrics [("col", { semantic_type := some "X" })]
        [("col", "Y")]).total_columns = 1 := by
  decide

/-- Claim C1 (amended): for every scored column, a true positive is counted
iff the prediction is correct and the predicted label is not NONE, a false
positive iff incorrect and predicted is not NONE, a false negative iff
incorrect and actual is not NONE; an incorrectly classified column therefore
counts as an FP and as an FN independently by those conditions — in
particular a wrong non-NONE prediction for a non-NONE actual contributes to
both counts, not to exactly one. -/
theorem c1_tp_fp_fn_conditions (d : Detail) (ds : List Detail) (exc : ℕ) :
    ((calculateMetricScores (d :: ds) exc).true_positives =
      (calculateMetricScores ds exc).true_positives +
        (if d.correct = true ∧ d.predicted ≠ "NONE" then 1 else 0)) ∧
    ((calculateMetricScores (d :: ds) exc).false_positives =
      (calculateMetricScores ds exc).false_positives +
        (if d.correct = false ∧ d.predicted ≠ "NONE" then 1 else 0)) ∧
    ((calculateMetricScores (d :: ds) exc).false_negatives =
      (calculateMetricScores ds exc).false_negatives +
        (if d.correct = false ∧ d.actual ≠ "NONE" then 1 else 0)) ∧
    (d.correct = false → d.predicted ≠ "NONE" → d.actual ≠ "NONE" →
      (calculateMetricScores (d :: ds) exc).false_positives +
        (calculateMetricScores (d :: ds) exc).false_negatives =
      (calculateMetricScores ds exc).false_positives +
        (calculateMetricScores ds exc).false_negatives + 2) := by
  have htp : (calculateMetricScores (d :: ds) exc).true_positives =
      (calculateMetricScores ds exc).true_positives +
        (if d.correct = true ∧ d.predicted ≠ "NONE" then 1 else 0) := by
    simp [cms_tp, List.countP_cons, Bool.and_eq_true, bne_iff_ne]
  have hfp : (calculateMetricScores (d :: ds) exc).false_positives =
      (calculateMetricScores ds exc).false_positives +
        (if d.correct = false ∧ d.predicted ≠ "NONE" then 1 else 0) := by
    simp [cms_fp, List.countP_cons, Bool.and_eq_true, bne_iff_ne,
      Bool.not_eq_true']
  have hfn : (calculateMetricScores (d :: ds) exc).false_negatives =
      (calculateMetricScores ds exc).false_negatives +
        (if d.correct = false ∧ d.actual ≠ "NONE" then 1 else 0) := by
    simp [cms_fneg, List.countP_cons, Bool.and_eq_true, bne_iff_ne,
      Bool.not_eq_true']
  refine ⟨htp, hfp, hfn, ?_⟩
  intro h1 h2 h3
  rw [hfp, hfn]
  simp [h1, h2, h3]
  omega

/-- Claim C8: metric aggregation is additive — aggregating the metric records
of two one-file runs sums the six integer counts and recomputes the ratios
from the sums, which coincides exactly (all counts, all ratios, and the
concatenated detail list) with scoring the union of the two per-column detail
lists directly. -/
theorem c8_aggregation_additive (d1 d2 : List Detail) (e1 e2 : ℕ) :
    aggregateMetricsList
        [calculateMetricScores d1 e1, calculateMetricScores d2 e2] =
      calculateMetricScores (d1 ++ d2) (e1 + e2) := by
  simp [aggregateMetricsList, calculateMetricScores, List.countP_append,
    MetricSet.mk.injEq]

/-- The two lists `_compute_classification_details` builds are the filterMaps
of the per-entry contribution functions. -/
theorem ccd_eq_filterMap (cls : List (String × Classification))
    (gt : List (String × String)) :
    computeClassificationDetails cls gt =
      (cls.filterMap (detailEntry gt), cls.filterMap (excludedEntry gt)) := by
  induction cls with
  | nil => rfl
  | cons pc rest ih =>
    obtain ⟨col, c⟩ := pc
    simp only [computeClassificationDetails, ih, List.filterMap_cons]
    cases h : List.lookup col gt with
    | none => simp [detailEntry, excludedEntry, h]
    | some t =>
      by_cases ht : t = "" ∨ t = "nan" <;>
        simp [detailEntry, excludedEntry, h, ht]

/-- Each prediction-map entry lands in exactly one of the detail list and the
excluded list, so the two lengths add up to the map's size. -/
theorem ccd_length_split (cls : List (String × Classification))
    (gt : List (String × String)) :
    (computeClassificationDetails cls gt).1.length +
      (computeClassificationDetails cls gt).2.length = cls.length := by
  induction cls with
  | nil => rfl
  | cons pc rest ih =>
    obtain ⟨col, c⟩ := pc
    simp only [computeClassificationDetails]
    cases h : List.lookup col gt with
    | none => simpa using by omega
    | some t =>
      by_cases ht : t = "" ∨ t = "nan" <;> simp [h, ht] <;> omega

/-- Claim C9 counterexample: permuting the two entries of a prediction map
leaves every count and ratio intact but reverses the per-column detail list,
so the resulting metric record is not identical to the original one. -/
theorem c9_counterexample :
    (calculateMetrics
        [("a", { semantic_type := some "X" }), ("b", { semantic_type := some "Y" })]
        [("a", "X"), ("b", "Y")]).details ≠
      (calculateMetrics
        [("b", { semantic_type := some "Y" }), ("a", { semantic_type := some "X" })]
        [("a", "X"), ("b", "Y")]).details ∧
    calculateMetrics
        [("a", { semantic_type := some "X" }), ("b", { semantic_type := some "Y" })]
        [("a", "X"), ("b", "Y")] ≠
      calculateMetrics
        [("b", { semantic_type := some "Y" }), ("a", { semantic_type := some "X" })]
        [("a", "X"), ("b", "Y")] := by
  have hd : (calculateMetrics
      [("a", { semantic_type := some "X" }), ("b", { semantic_type := some "Y" })]
      [("a", "X"), ("b", "Y")]).details ≠
    (calculateMetrics
      [("b", { semantic_type := some "Y" }), ("a", { semantic_type := some "X" })]
      [("a", "X"), ("b", "Y")]).details := by decide
  exact ⟨hd, fun h => hd (congrArg MetricSet.details h)⟩

/-- Claim C9 (amended): scoring a key-permuted prediction map yields a metric
record with identical counts and identical ratios, and a per-column detail
list that is the same permutation of the original detail list (not an
identical list). -/
theorem c9_permutation_invariance (cls1 cls2 : List (String × Classification))
    (gt : List (String × String)) (h : cls1.Perm cls2) :
    (calculateMetrics cls1 gt).accuracy = (calculateMetrics cls2 gt).accuracy ∧
    (calculateMetrics cls1 gt).precision = (calculateMetrics cls2 gt).precision ∧
    (calculateMetrics cls1 gt).recall_ = (calculateMetrics cls2 gt).recall_ ∧
    (calculateMetrics cls1 gt).f1_score = (calculateMetrics cls2 gt).f1_score ∧
    (calculateMetrics cls1 gt).total_columns =
      (calculateMetrics cls2 gt).total_columns ∧
    (calculateMetrics cls1 gt).excluded_columns =
      (calculateMetrics cls2 gt).excluded_columns ∧
    (calculateMetrics cls1 gt).correct_predictions =
      (calculateMetrics cls2 gt).correct_predictions ∧
    (calculateMetrics cls1 gt).true_positives =
      (calculateMetrics cls2 gt).true_positives ∧
    (calculateMetrics cls1 gt).false_positives =
      (calculateMetrics cls2 gt).false_positives ∧
    (calculateMetrics cls1 gt).false_negatives =
      (calculateMetrics cls2 gt).false_negatives ∧
    (calculateMetrics cls1 gt).details.Perm (calculateMetrics cls2 gt).details := by
  have hd : ((computeClassificationDetails cls1 gt).1).Perm
      ((computeClassificationDetails cls2 gt).1) := by
    rw [ccd_eq_filterMap, ccd_eq_filterMap]
    exact h.filterMap _
  have he : ((computeClassificationDetails cls1 gt).2).Perm
      ((computeClassificationDetails cls2 gt).2) := by
    rw [ccd_eq_filterMap, ccd_eq_filterMap]
    exact h.filterMap _
  have hlen := hd.length_eq
  have hexlen := he.length_eq
  have hcor := hd.countP_eq (fun d => d.correct)
  have htp := hd.countP_eq (fun d => d.correct && d.predicted != "NONE")
  have hfp := hd.countP_eq (fun d => !d.correct && d.predicted != "NONE")
  have hfn := hd.countP_eq (fun d => !d.correct && d.actual != "NONE")
  have hTot : (calculateMetrics cls1 gt).total_columns =
      (calculateMetrics cls2 gt).total_columns := by
    simpa [calculateMetrics, cms_total] using hlen
  have hExc : (calculateMetrics cls1 gt).excluded_columns =
      (calculateMetrics cls2 gt).excluded_columns := by
    simpa [calculateMetrics, cms_excluded] using hexlen
  have hCor : (calculateMetrics cls1 gt).correct_predictions =
      (calculateMetrics cls2 gt).correct_predictions := by
    simpa [calculateMetrics, cms_correct] using hcor
  have hTp : (calculateMetrics cls1 gt).true_positives =
      (calculateMetrics cls2 gt).true_positives := by
    simpa [calculateMetrics, cms_tp] using htp
  have hFp : (calculateMetrics cls1 gt).false_positives =
      (calculateMetrics cls2 gt).false_positives := by
    simpa [calculateMetrics, cms_fp] using hfp
  have hFn : (calculateMetrics cls1 gt).false_negatives =
      (calculateMetrics cls2 gt).false_negatives := by
    simpa [calculateMetrics, cms_fneg] using hfn
  have hAcc : (calculateMetrics cls1 gt).accuracy =
      (calculateMetrics cls2 gt).accuracy := by
    rw [calculateMetrics, calculateMetrics, cms_accuracy, cms_accuracy,
      ← calculateMetrics, ← calculateMetrics, hTot, hCor]
  have hPrec : (calculateMetrics cls1 gt).precision =
      (calculateMetrics cls2 gt).precision := by
    rw [calculateMetrics, calculateMetrics, cms_precision, cms_precision,
      ← calculateMetrics, ← calculateMetrics, hTp, hFp]
  have hRec : (calculateMetrics cls1 gt).recall_ =
      (calculateMetrics cls2 gt).recall_ := by
    rw [calculateMetrics, calculateMetrics, cms_recall, cms_recall,
      ← calculateMetrics, ← calculateMetrics, hTp, hFn]
  have hF1 : (calculateMetrics cls1 gt).f1_score =
      (calculateMetrics cls2 gt).f1_score := by
    rw [calculateMetrics, calculateMetrics, cms_f1, cms_f1,
      ← calculateMetrics, ← calculateMetrics, hPrec, hRec]
  have hDet : (calculateMetrics cls1 gt).details.Perm
      (calculateMetrics cls2 gt).details := by
    simpa [calculateMetrics, cms_details] using hd
  exact ⟨hAcc, hPrec, hRec, hF1, hTot, hExc, hCor, hTp, hFp, hFn, hDet⟩

/-- Claim C9 witness: the amended permutation invariance at a concrete
two-column prediction map and its swap. -/
theorem c9_permutation_invariance_witness :
    (calculateMetrics
        [("a", { semantic_type := some "X" }), ("b", { semantic_type := some "Y" })]
        [("a", "X"), ("b", "Y")]).accuracy =
      (calculateMetrics
        [("b", { semantic_type := some "Y" }), ("a", { semantic_type := some "X" })]
        [("a", "X"), ("b", "Y")]).accuracy ∧
    (calculateMetrics
        [("a", { semantic_type := some "X" }), ("b", { semantic_type := some "Y" })]
        [("a", "X"), ("b", "Y")]).details.Perm
      (calculateMetrics
        [("b", { semantic_type := some "Y" }), ("a", { semantic_type := some "X" })]
        [("a", "X"), ("b", "Y")]).details := by
  have h := c9_permutation_invariance
    [("a", { semantic_type := some "X" }), ("b", { semantic_type := some "Y" })]
    [("b", { semantic_type := some "Y" }), ("a", { semantic_type := some "X" })]
    [("a", "X"), ("b", "Y")] (by decide)
  exact ⟨h.1, h.2.2.2.2.2.2.2.2.2.2⟩

/-- Claim C10: a column that appears in the ground-truth map but not in the
prediction map contributes to no count — extending the ground truth with a
binding for an unpredicted column leaves the whole metric record unchanged,
and scored plus excluded columns always add up to the prediction map's size,
so only predicted columns are ever scored or excluded. -/
theorem c10_unpredicted_column_no_count (cls : List (String × Classification))
    (gt : List (String × String)) (col : String) (label : String)
    (h : ∀ pc ∈ cls, pc.1 ≠ col) :
    calculateMetrics cls ((col, label) :: gt) = calculateMetrics cls gt ∧
    (calculateMetrics cls gt).total_columns +
      (calculateMetrics cls gt).excluded_columns = cls.length := by
  constructor
  · have hccd : computeClassificationDetails cls ((col, label) :: gt) =
        computeClassificationDetails cls gt := by
      induction cls with
      | nil => rfl
      | cons pc rest ih =>
        obtain ⟨c0, e0⟩ := pc
        have hne : c0 ≠ col := h (c0, e0) (List.mem_cons_self _ _)
        have hrest := ih (fun pc hpc => h pc (List.mem_cons_of_mem _ hpc))
        have hb : (c0 == col) = false := beq_eq_false_iff_ne.mpr hne
        have hlook : List.lookup c0 ((col, label) :: gt) = List.lookup c0 gt := by
          simp [List.lookup, hb]
        simp only [computeClassificationDetails, hrest, hlook]
    rw [calculateMetrics, calculateMetrics, hccd]
  · rw [calculateMetrics, cms_total, cms_excluded]
    exact ccd_length_split cls gt

/-- Claim C10 witness: the frame property at a concrete prediction map and a
ground-truth map carrying an extra unpredicted column. -/
theorem c10_unpredicted_column_no_count_witness :
    calculateMetrics [("a", { semantic_type := some "X" })]
        [("zip", "ZIP"), ("a", "X")] =
      calculateMetrics [("a", { semantic_type := some "X" })] [("a", "X")] ∧
    (calculateMetrics [("a", { semantic_type := some "X" })]
        [("a", "X")]).total_columns +
      (calculateMetrics [("a", { semantic_type := some "X" })]
        [("a", "X")]).excluded_columns = 1 :=
  c10_unpredicted_column_no_count [("a", { semantic_type := some "X" })]
    [("a", "X")] "zip" "ZIP" (by decide)

/-- Soundness of the header and ground-truth loop of the loader: every kept
header is nonempty and not "nan" (case-insensitive), and every ground-truth
key on either track is one of the kept headers. -/
theorem loadColumns_sound (b c : List Cell) (idx : Nat) (hs : List Cell) :
    (∀ name ∈ (loadColumns b c idx hs).1, name ≠ "" ∧ pyLower name ≠ "nan") ∧
    (∀ p ∈ (loadColumns b c idx hs).2.1, p.1 ∈ (loadColumns b c idx hs).1) ∧
    (∀ p ∈ (loadColumns b c idx hs).2.2, p.1 ∈ (loadColumns b c idx hs).1) := by
  induction hs generalizing idx with
  | nil => simp [loadColumns]
  | cons h0 rest ih =>
    obtain ⟨ihh, ihb, ihc⟩ := ih (idx + 1)
    by_cases hskip : cellStr h0 = "" ∨ pyLower (cellStr h0) = "nan"
    · simpa only [loadColumns, if_pos hskip] using ⟨ihh, ihb, ihc⟩
    · have hname0 : cellStr h0 ≠ "" ∧ pyLower (cellStr h0) ≠ "nan" := by
        constructor
        · exact fun he => hskip (Or.inl he)
        · exact fun he => hskip (Or.inr he)
      simp only [loadColumns, if_neg hskip]
      refine ⟨?_, ?_, ?_⟩
      · intro name hname
        rcases List.mem_cons.mp hname with rfl | hmem
        · exact hname0
        · exact ihh name hmem
      · intro p hp
        cases hgt : normalizeGtCell (b.getD idx none) with
        | none =>
          simp only [hgt] at hp
          exact List.mem_cons_of_mem _ (ihb p hp)
        | some t =>
          simp only [hgt] at hp
          rcases List.mem_cons.mp hp with rfl | hmem
          · exact List.mem_cons_self _ _
          · exact List.mem_cons_of_mem _ (ihb p hmem)
      · intro p hp
        cases hgt : normalizeGtCell (c.getD idx none) with
        | none =>
          simp only [hgt] at hp
          exact List.mem_cons_of_mem _ (ihc p hp)
        | some t =>
          simp only [hgt] at hp
          rcases List.mem_cons.mp hp with rfl | hmem
          · exact List.mem_cons_self _ _
          · exact List.mem_cons_of_mem _ (ihc p hmem)

/-- Claim C7: for every dataset file with at least 4 rows, the loader returns
headers containing no empty and no "nan" (case-insensitive) names, and both
ground-truth maps have key sets that are subsets of the returned headers. -/
theorem c7_loader_invariants (rows : List (List Cell)) (ds : LoadedDataset)
    (h : loadUniversal rows = .ok ds) :
    (∀ name ∈ ds.headers, name ≠ "" ∧ pyLower name ≠ "nan") ∧
    (∀ p ∈ ds.gtBase, p.1 ∈ ds.headers) ∧
    (∀ p ∈ ds.gtCustom, p.1 ∈ ds.headers) := by
  unfold loadUniversal at h
  split at h
  · exact absurd h (by simp)
  · injection h with h
    subst h
    exact loadColumns_sound _ _ 0 _

/-- Claim C7 witness: the loader invariants at a concrete 4-row file. -/
theorem c7_loader_invariants_witness :
    (∀ name ∈ dsUniversalEx.headers, name ≠ "" ∧ pyLower name ≠ "nan") ∧
    (∀ p ∈ dsUniversalEx.gtBase, p.1 ∈ dsUniversalEx.headers) ∧
    (∀ p ∈ dsUniversalEx.gtCustom, p.1 ∈ dsUniversalEx.headers) :=
  c7_loader_invariants rowsUniversalEx dsUniversalEx rfl

/-! Lemmas about the cache update of a successful registry write. -/

theorem setAssoc_isEmpty {α : Type} (l : List (String × α)) (k : String) (v : α) :
    (setAssoc l k v).isEmpty = false := by
  unfold setAssoc
  split
  · next hany =>
    cases l with
    | nil => simp at hany
    | cons a as => simp
  · cases l <;> simp

theorem setAssoc_ne_nil {α : Type} (l : List (String × α)) (k : String)
    (v : α) : setAssoc l k v ≠ [] := by
  unfold setAssoc
  split
  · next hany =>
    cases l with
    | nil => simp at hany
    | cons a as => simp
  · cases l <;> simp

theorem lookup_map_set {α : Type} (l : List (String × α)) (k : String) (v : α)
    (h : l.any (fun kv => kv.1 == k) = true) :
    List.lookup k (l.map (fun kv => if kv.1 == k then (k, v) else kv)) = some v := by
  induction l with
  | nil => simp at h
  | cons a as ih =>
    simp only [List.any_cons, Bool.or_eq_true] at h
    by_cases hk : (a.1 == k) = true
    · rw [List.map_cons, if_pos hk]
      simp [List.lookup]
    · have h2 := h.resolve_left hk
      have hk' : (k == a.1) = false := by
        rw [beq_eq_false_iff_ne]
        rw [Bool.not_eq_true, beq_eq_false_iff_ne] at hk
        exact fun e => hk e.symm
      rw [List.map_cons, if_neg hk]
      simpa [List.lookup, hk'] using ih h2

theorem lookup_append_new {α : Type} (l : List (String × α)) (k : String) (v : α)
    (h : l.any (fun kv => kv.1 == k) = false) :
    List.lookup k (l ++ [(k, v)]) = some v := by
  induction l with
  | nil => simp [List.lookup]
  | cons a as ih =>
    rw [List.any_cons, Bool.or_eq_false_iff] at h
    have hk' : (k == a.1) = false := by
      rw [beq_eq_false_iff_ne]
      have := beq_eq_false_iff_ne.mp h.1
      exact fun e => this e.symm
    simp [List.lookup, hk', ih h.2]

theorem lookup_setAssoc_self {α : Type} (l : List (String × α)) (k : String)
    (v : α) : List.lookup k (setAssoc l k v) = some v := by
  unfold setAssoc
  split
  · next hany => exact lookup_map_set l k v hany
  · next hany => exact lookup_append_new l k v (Bool.eq_false_iff.mpr hany)

/-- The normalized view drops the ephemeral flag, so a freshly written cache
entry is structurally identical to the payload it was written from. -/
theorem isSameType_ephemeral (p : Payload) :
    isSameType { p with ephemeral := true } p = true := by
  simp [isSameType, normType]

/-- Claim C3: upsert is idempotent against an unchanged registry — submitting
a generated type whose name is not yet in the effective cache performs
exactly one write; resubmitting the same type finds the structurally
identical normalized payload in the cache, skips the write, returns "not
created", and leaves the state untouched. -/
theorem c3_upsert_idempotent (s : RegistryState) (gt : GeneratedType)
    (p : Payload)
    (hdry : s.dryRun = false)
    (hvalid : isValidGeneratedType gt = true)
    (hbuild : buildCustomTypePayload gt = some p)
    (hfresh : List.lookup p.semanticType
        (if s.cache.isEmpty then s.registry else s.cache) = none) :
    (createCustomType s gt).1 = true ∧
    (createCustomType s gt).2.writes = s.writes + 1 ∧
    (createCustomType (createCustomType s gt).2 gt).1 = false ∧
    (createCustomType (createCustomType s gt).2 gt).2 =
      (createCustomType s gt).2 := by
  have hfresh' : List.lookup p.semanticType
      (if s.cache = [] then s.registry else s.cache) = none := by
    simpa [List.isEmpty_iff] using hfresh
  have h1 : createCustomType s gt =
      (true,
        { s with
          registry := setAssoc s.registry p.semanticType
            { p with ephemeral := true }
          cache := setAssoc (if s.cache.isEmpty then s.registry else s.cache)
            p.semanticType { p with ephemeral := true }
          created := p.semanticType :: s.created
          writes := s.writes + 1 }) := by
    simp [createCustomType, hvalid, upsertCustomType, hbuild, hfresh', hdry,
      List.isEmpty_iff]
  have h2 : createCustomType (createCustomType s gt).2 gt =
      (false, (createCustomType s gt).2) := by
    rw [h1]
    simp [createCustomType, hvalid, upsertCustomType, hbuild, setAssoc_ne_nil,
      lookup_setAssoc_self, isSameType_ephemeral, List.isEmpty_iff]
  exact ⟨by rw [h1], by rw [h1], by rw [h2], by rw [h2]⟩

/-- Claim C3 witness: idempotent upsert of a concrete regex type against an
initially empty registry. -/
theorem c3_upsert_idempotent_witness :
    (createCustomType {} gtRegexEx).1 = true ∧
    (createCustomType {} gtRegexEx).2.writes =
      ({} : RegistryState).writes + 1 ∧
    (createCustomType (createCustomType {} gtRegexEx).2 gtRegexEx).1 = false ∧
    (createCustomType (createCustomType {} gtRegexEx).2 gtRegexEx).2 =
      (createCustomType {} gtRegexEx).2 :=
  c3_upsert_idempotent {} gtRegexEx payloadRegexEx rfl (by decide) (by decide)
    (by decide)

/-- Claim C6: a `list` generated type with a nonempty value list but an
absent or blank backout pattern is rejected before any write — upsert returns
false and the lifecycle state (registry, cache, write count) is untouched. -/
theorem c6_list_without_backout (s : RegistryState) (gt : GeneratedType)
    (vs : List (Option String))
    (hplugin : gt.pluginType = "list")
    (hvals : gt.listValues = some vs) (hne : vs ≠ [])
    (hback : pyStrip (gt.backout.getD "") = "") :
    createCustomType s gt = (false, s) := by
  have hlist : ∀ p : Payload, addListContent p gt = none := by
    intro p
    have hemp : vs.isEmpty = false := by
      cases vs with
      | nil => exact absurd rfl hne
      | cons a as => rfl
    simp [addListContent, hvals, hemp, hback]
  have hbuild : buildCustomTypePayload gt = none := by
    simp [buildCustomTypePayload, hplugin, hlist]
  cases hv : isValidGeneratedType gt <;> simp [createCustomType, hv, hbuild]

/-- Claim C6 witness: the concrete `list` type with values ["CA", "NY"] and no
backout is rejected without a write. -/
theorem c6_list_without_backout_witness :
    createCustomType {} gtListNoBackoutEx = (false, {}) :=
  c6_list_without_backout {} gtListNoBackoutEx [some "CA", some "NY"] rfl rfl
    (by decide) rfl

/-! Lemmas about the aggregate per-column counters. -/

theorem aggStats_base_le (col : String) (files : List FileMaps) :
    (aggColumnStats col files).2.1 ≤ (aggColumnStats col files).1 := by
  induction files with
  | nil => simp [aggColumnStats]
  | cons fp rest ih =>
    by_cases ho : colOccurs fp col
    · by_cases hb : baseOkAt fp col <;> simp [aggColumnStats, ho, hb] <;> omega
    · simpa [aggColumnStats, ho] using ih

theorem aggStats_cust_le (col : String) (files : List FileMaps) :
    (aggColumnStats col files).2.2 ≤ (aggColumnStats col files).1 := by
  induction files with
  | nil => simp [aggColumnStats]
  | cons fp rest ih =>
    by_cases ho : colOccurs fp col
    · by_cases hc : custOkAt fp col <;> simp [aggColumnStats, ho, hc] <;> omega
    · simpa [aggColumnStats, ho] using ih

theorem aggStats_base_eq_iff (col : String) (files : List FileMaps) :
    ((aggColumnStats col files).2.1 = (aggColumnStats col files).1) ↔
      (files.all fun fp => !colOccurs fp col || baseOkAt fp col) = true := by
  induction files with
  | nil => simp [aggColumnStats]
  | cons fp rest ih =>
    have hle := aggStats_base_le col rest
    by_cases ho : colOccurs fp col
    · by_cases hb : baseOkAt fp col
      · simp only [aggColumnStats, ho, hb, if_true, List.all_cons,
          Bool.not_true, Bool.false_or, Bool.and_eq_true]
        rw [← ih]
        constructor
        · intro hh; exact ⟨trivial, by omega⟩
        · intro hh; omega
      · simp [aggColumnStats, ho, hb, List.all_cons]
        omega
    · simp [aggColumnStats, ho, List.all_cons, ih]

theorem aggStats_cust_eq_iff (col : String) (files : List FileMaps) :
    ((aggColumnStats col files).2.2 = (aggColumnStats col files).1) ↔
      (files.all fun fp => !colOccurs fp col || custOkAt fp col) = true := by
  induction files with
  | nil => simp [aggColumnStats]
  | cons fp rest ih =>
    have hle := aggStats_cust_le col rest
    by_cases ho : colOccurs fp col
    · by_cases hc : custOkAt fp col
      · simp only [aggColumnStats, ho, hc, if_true, List.all_cons,
          Bool.not_true, Bool.false_or, Bool.and_eq_true]
        rw [← ih]
        constructor
        · intro hh; exact ⟨trivial, by omega⟩
        · intro hh; omega
      · simp [aggColumnStats, ho, hc, List.all_cons]
        omega
    · simp [aggColumnStats, ho, List.all_cons, ih]

/-- Claim C4 counterexample: a column whose baseline prediction is correct in
one file and wrong in another (custom correct in both) is classified "both"
by the per-description outcome summary, although baseline correctness does
not hold for all its occurrences — on the same data the aggregate outcome,
which does implement the all-occurrences rule, classifies it "custom only". -/
theorem c4_counterexample :
    computeCorrectMap [("c", { semantic_type := some "U" })] [("c", "T")] =
      [("c", false)] ∧
    descColumnOutcome
      [computeCorrectMap [("c", { semantic_type := some "T" })] [("c", "T")],
       computeCorrectMap [("c", { semantic_type := some "U" })] [("c", "T")]]
      [computeCorrectMap [("c", { semantic_type := some "Z" })] [("c", "Z")],
       computeCorrectMap [("c", { semantic_type := some "Z" })] [("c", "Z")]]
      "c" = "both" ∧
    aggColumnOutcome
      [(perColumnCorrectMap [("c", { semantic_type := some "T" })] [("c", "T")],
        perColumnCorrectMap [("c", { semantic_type := some "Z" })] [("c", "Z")]),
       (perColumnCorrectMap [("c", { semantic_type := some "U" })] [("c", "T")],
        perColumnCorrectMap [("c", { semantic_type := some "Z" })] [("c", "Z")])]
      "c" = "custom only" := by
  refine ⟨by decide, by decide, by decide⟩

/-- Claim C4 (amended): only the aggregate per-column outcome classifies each
side by correctness on ALL occurrences of the column across files; the
per-description outcome summary classifies a side as correct as soon as ANY
occurrence is correct on that side. -/
theorem c4_outcome_classification (bmaps cmaps : List (List (String × Bool)))
    (files : List FileMaps) (col : String) :
    descColumnOutcome bmaps cmaps col =
      outcomeWord (bmaps.any fun m => (List.lookup col m).getD false)
        (cmaps.any fun m => (List.lookup col m).getD false) ∧
    aggColumnOutcome files col =
      outcomeWord (files.all fun fp => !colOccurs fp col || baseOkAt fp col)
        (files.all fun fp => !colOccurs fp col || custOkAt fp col) := by
  constructor
  · rfl
  · have hb := aggStats_base_eq_iff col files
    have hc := aggStats_cust_eq_iff col files
    unfold aggColumnOutcome aggOutcomeLabel outcomeWord
    cases hB : (files.all fun fp => !colOccurs fp col || baseOkAt fp col) <;>
      cases hC : (files.all fun fp => !colOccurs fp col || custOkAt fp col) <;>
        simp [hB, hC] at hb hc ⊢ <;> simp [hb, hc]

end NL2FTA
